import Mathlib

/-!
Shallow embedding of `download_yt.py`: a command-line shell that parses one
URL argument, ensures the `downloads` directory exists, assembles a
configuration dictionary for an external download/transcode engine and
invokes the engine's download operation once.
-/

namespace DownloadYt

/-- Heterogeneous values stored in a Python-style configuration dict. -/
inductive Value where
  | vint  : Int → Value
  | vstr  : String → Value
  | vbool : Bool → Value
  | vlist : List Value → Value
  | vdict : List (String × Value) → Value

/-- Insertion-ordered string-keyed dictionary, as a Python `dict`. -/
abbrev Dict := List (String × Value)

/-- First-match lookup: `d[k]` as an `Option`. -/
def Dict.lookup : Dict → String → Option Value
  | [], _ => none
  | (a, b) :: tl, k => if a = k then some b else Dict.lookup tl k

/-- Python `d.get(k, dflt)`. -/
def Dict.get (d : Dict) (k : String) (dflt : Value) : Value :=
  (Dict.lookup d k).getD dflt

/-- Python key assignment: replace the binding in place when the key is
already present, otherwise append it at the end (insertion order). -/
def Dict.set : Dict → String → Value → Dict
  | [], k, v => [(k, v)]
  | (a, b) :: tl, k, v =>
      if a = k then (a, v) :: tl else (a, b) :: Dict.set tl k v

/-- Double-splat dict merge: start from `d1` and write every binding of
`d2` in order, so on a key collision the later mapping wins. -/
def Dict.merge (d1 d2 : Dict) : Dict :=
  List.foldl (fun acc kv => Dict.set acc kv.1 kv.2) d1 d2

/-- View of a value as a Python sequence for the `*` splat; `none` models
the TypeError raised when splatting a non-sequence. -/
def asList : Value → Option (List Value)
  | Value.vlist l => some l
  | _ => none

/-- Line 11 of the source. -/
def OUTPUT_DIRECTORY : String := "downloads"

/-- Lines 14-19 of the source: the reliability defaults. -/
def cli_defaults : Dict :=
  [("fragment_retries", Value.vint 10),
   ("ignoreerrors", Value.vstr "only_download"),
   ("retries", Value.vint 10),
   ("warn_when_outdated", Value.vbool true)]

/-- Lines 25-31 of the source: the mandatory FFmpegExtractAudio step. -/
def transcodeStep : Value :=
  Value.vdict
    [("key", Value.vstr "FFmpegExtractAudio"),
     ("preferredcodec", Value.vstr "mp3"),
     ("preferredquality", Value.vstr "0")]

/-- The format/output settings written literally in the dict display of
lines 21-36, given the list `ps` splatted from the reliability defaults. -/
def formatOutputSettings (ps : List Value) : Dict :=
  [("format", Value.vstr "bestaudio/best"),
   ("postprocessors", Value.vlist (transcodeStep :: ps)),
   ("outtmpl", Value.vstr (OUTPUT_DIRECTORY ++ "/%(uploader)s - %(title)s.%(ext)s"))]

/-- Assembly of `ydl_opts` (lines 21-36), parameterized over the
reliability-defaults mapping; `none` models the TypeError the `*` splat
would raise if the defaults mapped 'postprocessors' to a non-sequence. -/
def ydl_optsOf (d : Dict) : Option Dict :=
  Option.map (fun ps => Dict.merge d (formatOutputSettings ps))
    (asList (Dict.get d "postprocessors" (Value.vlist [])))

/-- The configuration the actual run assembles. -/
def ydl_opts : Dict :=
  Option.getD (ydl_optsOf cli_defaults) []

/-- Observable calls of the script into the OS and the engine. -/
inductive Effect where
  | makedirs : String → Bool → Effect
  | download : Dict → List String → Effect

/-- Lines 5-7: argparse with a single required positional argument.
Parsing succeeds exactly when one argument is supplied; otherwise the
parser prints usage and the process exits non-zero. -/
def parse_args : List String → Option String
  | [u] => some u
  | _ => none

/-- The whole script as a trace of effects plus a success flag: parse the
command line, create the output directory, assemble the configuration and
invoke the engine once with a singleton URL list (lines 5-39). -/
def run (argv : List String) : List Effect × Bool :=
  match parse_args argv with
  | none => ([], false)
  | some url =>
    match ydl_optsOf cli_defaults with
    | none => ([Effect.makedirs OUTPUT_DIRECTORY true], false)
    | some opts =>
        ([Effect.makedirs OUTPUT_DIRECTORY true, Effect.download opts [url]], true)

/-- The engine invocations of a trace, with their arguments. -/
def downloadCalls : List Effect → List (Dict × List String)
  | [] => []
  | Effect.download d us :: tl => (d, us) :: downloadCalls tl
  | _ :: tl => downloadCalls tl

/-- Directory layer of the filesystem: which directories exist and what
each contains. -/
structure FS where
  dirs : List String
  contents : List (String × List String)

/-- Python `os.makedirs(path, exist_ok)`: create the directory when it is
absent; when it is present, succeed without change if `ok` is set, error
otherwise. -/
def FS.makedirs (fs : FS) (path : String) (ok : Bool) : Option FS :=
  if List.contains fs.dirs path then
    if ok then some fs else none
  else some { dirs := path :: fs.dirs, contents := fs.contents }

theorem merge_fmt (d : Dict) (ps : List Value) :
    Dict.merge d (formatOutputSettings ps)
      = Dict.set (Dict.set (Dict.set d "format" (Value.vstr "bestaudio/best"))
          "postprocessors" (Value.vlist (transcodeStep :: ps)))
          "outtmpl"
          (Value.vstr (OUTPUT_DIRECTORY ++ "/%(uploader)s - %(title)s.%(ext)s")) := rfl

theorem Dict.lookup_set (d : Dict) (k k' : String) (v : Value) :
    Dict.lookup (Dict.set d k v) k' = if k = k' then some v else Dict.lookup d k' := by
  induction d with
  | nil => simp [Dict.set, Dict.lookup]
  | cons hd tl ih =>
    obtain ⟨a, b⟩ := hd
    by_cases hak : a = k
    · subst hak
      by_cases hk' : a = k'
      · subst hk'
        simp [Dict.set, Dict.lookup]
      · simp [Dict.set, Dict.lookup, hk']
    · by_cases hk' : a = k'
      · subst hk'
        have hka : ¬ k = a := fun h => hak h.symm
        simp [Dict.set, Dict.lookup, hak, hka]
      · simp [Dict.set, Dict.lookup, hak, hk', ih]

theorem Dict.set_eq_self (d : Dict) (k : String) (v : Value)
    (h : Dict.lookup d k = some v) : Dict.set d k v = d := by
  induction d with
  | nil => simp [Dict.lookup] at h
  | cons hd tl ih =>
    obtain ⟨a, b⟩ := hd
    by_cases hak : a = k
    · subst hak
      simp [Dict.lookup] at h
      simp [Dict.set, h]
    · simp [Dict.lookup, hak] at h
      simp [Dict.set, hak, ih h]

/-- C1: the assembled configuration's 'postprocessors' list has the
mandatory FFmpegExtractAudio step (codec mp3, quality 0) as its first
element, and since `cli_defaults` defines no 'postprocessors' key the
appended default-supplied list is empty, so the list is exactly that one
step. -/
theorem claim_C1 :
    Dict.lookup cli_defaults "postprocessors" = none ∧
    ydl_optsOf cli_defaults = some ydl_opts ∧
    Dict.lookup ydl_opts "postprocessors" = some (Value.vlist [transcodeStep]) :=
  ⟨rfl, rfl, rfl⟩

/-- C2: in the configuration merge, every key bound by the format/output
settings gets the format/output value in the assembled mapping (later
merge wins), and every key they do not bind keeps its value from the
reliability defaults. -/
theorem claim_C2 (d : Dict) (ps : List Value) (k : String) :
    (∀ v, Dict.lookup (formatOutputSettings ps) k = some v →
      Dict.lookup (Dict.merge d (formatOutputSettings ps)) k = some v) ∧
    (Dict.lookup (formatOutputSettings ps) k = none →
      Dict.lookup (Dict.merge d (formatOutputSettings ps)) k = Dict.lookup d k) := by
  rw [merge_fmt]
  constructor
  · intro v hv
    simp only [formatOutputSettings, Dict.lookup] at hv
    simp only [Dict.lookup_set]
    by_cases h1 : ("format" : String) = k
    · simp [← h1] at hv ⊢
      simpa using hv
    · by_cases h2 : ("postprocessors" : String) = k
      · simp [← h2] at hv ⊢
        simpa using hv
      · by_cases h3 : ("outtmpl" : String) = k
        · simp [← h3] at hv ⊢
          simpa using hv
        · simp [h1, h2, h3] at hv
  · intro hv
    simp only [formatOutputSettings, Dict.lookup] at hv
    by_cases h1 : ("format" : String) = k
    · simp [← h1] at hv
    · by_cases h2 : ("postprocessors" : String) = k
      · simp [← h2] at hv
      · by_cases h3 : ("outtmpl" : String) = k
        · simp [← h3] at hv
        · simp [Dict.lookup_set, h1, h2, h3]

theorem claim_C2_witness :
    Dict.lookup (Dict.merge cli_defaults (formatOutputSettings [])) "format"
        = some (Value.vstr "bestaudio/best") ∧
    Dict.lookup (Dict.merge cli_defaults (formatOutputSettings [])) "retries"
        = Dict.lookup cli_defaults "retries" :=
  ⟨(claim_C2 cli_defaults [] "format").1 (Value.vstr "bestaudio/best") rfl,
   (claim_C2 cli_defaults [] "retries").2 rfl⟩

/-- C3: for any reliability-defaults mapping that supplies a
'postprocessors' list, the assembly succeeds and every supplied step
appears in the assembled 'postprocessors' list, in order, immediately
after the mandatory transcoding step. -/
theorem claim_C3 (d : Dict) (l : List Value)
    (h : Dict.lookup d "postprocessors" = some (Value.vlist l)) :
    ∃ cfg, ydl_optsOf d = some cfg ∧
      Dict.lookup cfg "postprocessors" = some (Value.vlist (transcodeStep :: l)) := by
  refine ⟨Dict.merge d (formatOutputSettings l), ?_, ?_⟩
  · simp [ydl_optsOf, Dict.get, h, asList]
  · rw [merge_fmt]
    simp [Dict.lookup_set]

theorem claim_C3_witness :
    ∃ cfg,
      ydl_optsOf [("postprocessors", Value.vlist [Value.vstr "EmbedThumbnail"])]
          = some cfg ∧
      Dict.lookup cfg "postprocessors"
          = some (Value.vlist (transcodeStep :: [Value.vstr "EmbedThumbnail"])) :=
  claim_C3 [("postprocessors", Value.vlist [Value.vstr "EmbedThumbnail"])]
    [Value.vstr "EmbedThumbnail"] rfl

/-- C4: the merge of the reliability defaults with the format/output
settings is deterministic (it is a pure function of its two inputs) and
idempotent: merging the already-merged configuration with the same
format/output settings again yields the same configuration mapping. -/
theorem claim_C4 (d : Dict) (ps : List Value) :
    Dict.merge (Dict.merge d (formatOutputSettings ps)) (formatOutputSettings ps)
      = Dict.merge d (formatOutputSettings ps) := by
  have hf : Dict.lookup (Dict.merge d (formatOutputSettings ps)) "format"
      = some (Value.vstr "bestaudio/best") := by
    rw [merge_fmt]; simp [Dict.lookup_set]
  have hp : Dict.lookup (Dict.merge d (formatOutputSettings ps)) "postprocessors"
      = some (Value.vlist (transcodeStep :: ps)) := by
    rw [merge_fmt]; simp [Dict.lookup_set]
  have ho : Dict.lookup (Dict.merge d (formatOutputSettings ps)) "outtmpl"
      = some (Value.vstr (OUTPUT_DIRECTORY ++ "/%(uploader)s - %(title)s.%(ext)s")) := by
    rw [merge_fmt]; simp [Dict.lookup_set]
  conv_lhs => rw [merge_fmt]
  rw [Dict.set_eq_self _ _ _ hf, Dict.set_eq_self _ _ _ hp,
    Dict.set_eq_self _ _ _ ho]

theorem claim_C4_witness :
    Dict.merge (Dict.merge cli_defaults (formatOutputSettings []))
        (formatOutputSettings [])
      = Dict.merge cli_defaults (formatOutputSettings []) :=
  claim_C4 cli_defaults []

/-- C5: the run's first effect is creating the output directory with the
tolerant flag, and that creation is idempotent: from every starting
filesystem state it succeeds, afterwards 'downloads' exists, and when the
directory already existed the state (its contents included) is returned
unchanged. -/
theorem claim_C5 (fs : FS) (url : String) :
    List.head? (run [url]).1 = some (Effect.makedirs OUTPUT_DIRECTORY true) ∧
    FS.makedirs fs OUTPUT_DIRECTORY true
      = some (if List.contains fs.dirs OUTPUT_DIRECTORY then fs
              else { dirs := OUTPUT_DIRECTORY :: fs.dirs, contents := fs.contents }) ∧
    List.contains
      (Option.getD (FS.makedirs fs OUTPUT_DIRECTORY true) fs).dirs
      OUTPUT_DIRECTORY = true := by
  refine ⟨rfl, ?_, ?_⟩
  · by_cases h : OUTPUT_DIRECTORY ∈ fs.dirs <;>
      simp [FS.makedirs, h]
  · by_cases h : OUTPUT_DIRECTORY ∈ fs.dirs <;>
      simp [FS.makedirs, h]

/-- C6: on a run given one URL argument, the engine's download operation
is invoked exactly once, with the assembled configuration and a singleton
list holding that URL verbatim. -/
theorem claim_C6 (url : String) :
    downloadCalls (run [url]).1 = [(ydl_opts, [url])] ∧ (run [url]).2 = true :=
  ⟨rfl, rfl⟩

/-- C7: the assembled configuration maps 'ignoreerrors' to the string
'only_download' and 'outtmpl' to the template
'downloads/%(uploader)s - %(title)s.%(ext)s'. -/
theorem claim_C7 :
    Dict.lookup ydl_opts "ignoreerrors" = some (Value.vstr "only_download") ∧
    Dict.lookup ydl_opts "outtmpl"
      = some (Value.vstr "downloads/%(uploader)s - %(title)s.%(ext)s") :=
  ⟨rfl, rfl⟩

/-- C8: with no URL argument the parser fails, so the run aborts with a
failure exit and an empty effect trace: no directory is created and the
engine is never invoked. -/
theorem claim_C8 : parse_args [] = none ∧ run [] = ([], false) :=
  ⟨rfl, rfl⟩

/-- C9: the assembled configuration is independent of the URL argument:
two runs on any two URLs produce download calls with identical
configuration mappings, and each trace is the fixed two-effect shape in
which the URL appears only as the download call's argument. -/
theorem claim_C9 (u1 u2 : String) :
    List.map Prod.fst (downloadCalls (run [u1]).1)
      = List.map Prod.fst (downloadCalls (run [u2]).1) ∧
    (run [u1]).1 = [Effect.makedirs OUTPUT_DIRECTORY true,
                    Effect.download ydl_opts [u1]] :=
  ⟨rfl, rfl⟩

/-- C10: assembling the configuration leaves the reliability defaults
intact: `cli_defaults` still binds exactly its four keys to their original
values, and all four entries appear unchanged in the assembled
configuration. -/
theorem claim_C10 :
    List.map Prod.fst cli_defaults
      = ["fragment_retries", "ignoreerrors", "retries", "warn_when_outdated"] ∧
    Dict.lookup cli_defaults "fragment_retries" = some (Value.vint 10) ∧
    Dict.lookup cli_defaults "ignoreerrors" = some (Value.vstr "only_download") ∧
    Dict.lookup cli_defaults "retries" = some (Value.vint 10) ∧
    Dict.lookup cli_defaults "warn_when_outdated" = some (Value.vbool true) ∧
    Dict.lookup ydl_opts "fragment_retries" = Dict.lookup cli_defaults "fragment_retries" ∧
    Dict.lookup ydl_opts "ignoreerrors" = Dict.lookup cli_defaults "ignoreerrors" ∧
    Dict.lookup ydl_opts "retries" = Dict.lookup cli_defaults "retries" ∧
    Dict.lookup ydl_opts "warn_when_outdated" = Dict.lookup cli_defaults "warn_when_outdated" :=
  ⟨rfl, rfl, rfl, rfl, rfl, rfl, rfl, rfl, rfl⟩

end DownloadYt
